import Mathlib

/-!
Verification of the sales-metrics aggregation/caching layer and auxiliary
algorithms of the point-of-sale back office (routers/metricas.py,
routers/despesas.py, scripts/cleanup_duplicate_vendas.py).

Conventions of the shallow embedding:
* Python floats and decimals are modelled as exact rationals (ℚ).
* Python `datetime.date` is a record of integer year/month/day; the constructor
  `date(y, m, d)` is `mkDate`, returning `none` where Python raises ValueError.
* Database rows are lists of records; SQL aggregate queries are folds over the
  filtered list, with coalesce-to-zero semantics.
* Each fallible `db.execute` attempt is an explicit `Attempt` parameter
  (`ok` or `fail`), so retry logic becomes a total function of the schedule.
* Wall-clock timestamp reads are explicit integer-second parameters.
-/

namespace Nelson5

/-- Python `datetime.date`: a year/month/day triple (validity enforced by
`mkDate`, mirroring the `date(...)` constructor). -/
structure PyDate where
  year : ℤ
  month : ℤ
  day : ℤ
deriving DecidableEq, Repr

/-- Gregorian leap-year test, as used by Python `datetime.date` validity. -/
def isLeap (y : ℤ) : Bool :=
  y % 4 == 0 && (y % 100 != 0 || y % 400 == 0)

/-- Number of days in month `m` of year `y` (Gregorian calendar). -/
def daysInMonth (y m : ℤ) : ℤ :=
  if m == 2 then (if isLeap y then 29 else 28)
  else if m == 4 || m == 6 || m == 9 || m == 11 then 30
  else 31

/-- Python `date(y, m, d)`: `some` on a valid Gregorian date with
`1 ≤ y ≤ 9999`, `none` where Python raises `ValueError`. -/
def mkDate (y m d : ℤ) : Option PyDate :=
  if 1 ≤ y ∧ y ≤ 9999 ∧ 1 ≤ m ∧ m ≤ 12 ∧ 1 ≤ d ∧ d ≤ daysInMonth y m then
    some ⟨y, m, d⟩
  else none

/-- Value of a decimal digit character, `none` on non-digits. -/
def digitVal (c : Char) : Option ℤ :=
  if c.isDigit then some ((c.toNat : ℤ) - ('0'.toNat : ℤ)) else none

/-- Parse a fixed block of decimal digit characters into a number. -/
def parseDigits (cs : List Char) : Option ℤ :=
  cs.foldl
    (fun acc c =>
      match acc, digitVal c with
      | some n, some d => some (n * 10 + d)
      | _, _ => none)
    (some 0)

/-- Python `date.fromisoformat`: accepts exactly the `YYYY-MM-DD` layout
(the format accepted on the Python version targeted by the repository),
then validates the date; `none` where Python raises. -/
def fromisoformat (s : String) : Option PyDate :=
  match s.toList with
  | [y1, y2, y3, y4, '-', m1, m2, '-', d1, d2] =>
    match parseDigits [y1, y2, y3, y4], parseDigits [m1, m2], parseDigits [d1, d2] with
    | some y, some m, some d => mkDate y m d
    | _, _, _ => none
  | _ => none

/-- Zero-pad a (non-negative) number to two digits, as in ISO dates. -/
def pad2 (n : ℤ) : String :=
  if n < 10 then "0" ++ toString n else toString n

/-- Zero-pad a (non-negative) number to four digits, as in ISO dates. -/
def pad4 (n : ℤ) : String :=
  if n < 10 then "000" ++ toString n
  else if n < 100 then "00" ++ toString n
  else if n < 1000 then "0" ++ toString n
  else toString n

/-- Python `str(date)` / `date.isoformat()`: zero-padded `YYYY-MM-DD`. -/
def dateToIso (d : PyDate) : String :=
  pad4 d.year ++ "-" ++ pad2 d.month ++ "-" ++ pad2 d.day

/-- Python `date.strftime("%Y-%m")` (years of interest are ≥ 1000, where
the platform prints the year unpadded). -/
def formatYM (d : PyDate) : String :=
  pad4 d.year ++ "-" ++ pad2 d.month

/-- Lexicographic strict order on dates (Python date comparison). -/
def dateLtB (a b : PyDate) : Bool :=
  decide (a.year < b.year) ||
    (a.year == b.year &&
      (decide (a.month < b.month) ||
        (a.month == b.month && decide (a.day < b.day))))

/-- A SQL timestamp: a date plus seconds-of-day. -/
structure PyDateTime where
  date : PyDate
  tod : ℚ
deriving DecidableEq

/-- A date compared against a timestamp column is cast to midnight. -/
def dateToDT (d : PyDate) : PyDateTime := ⟨d, 0⟩

/-- Strict order on timestamps (date, then time of day). -/
def dtLtB (a b : PyDateTime) : Bool :=
  dateLtB a.date b.date || (a.date == b.date && decide (a.tod < b.tod))

/-- Non-strict order on timestamps. -/
def dtLeB (a b : PyDateTime) : Bool :=
  dateLtB a.date b.date || (a.date == b.date && decide (a.tod ≤ b.tod))

/-! ### Sales rows and the aggregate queries (routers/metricas.py) -/

/-- A row of the `vendas` table as seen by the metrics queries. -/
structure Venda where
  total : Option ℚ
  desconto : Option ℚ
  cancelada : Bool
  created_at : PyDateTime
deriving DecidableEq

/-- `coalesce(total, 0) - coalesce(desconto, 0)` for one sale. -/
def vendaLiquido (v : Venda) : ℚ :=
  v.total.getD 0 - v.desconto.getD 0

/-- The daily aggregate: `coalesce(sum(coalesce(total,0) - coalesce(desconto,0)), 0)`
over rows with `cancelada = false` and `date(created_at) = alvo`
(the SQL sum of the empty set coalesces to 0, which is the sum of the
empty list). -/
def vendasDiaQuery (db : List Venda) (alvo : PyDate) : ℚ :=
  ((db.filter fun v => !v.cancelada && v.created_at.date == alvo).map vendaLiquido).sum

/-- The monthly aggregate: same sum over rows with `cancelada = false`,
`created_at >= primeiro` and `created_at < proximo` (dates cast to
midnight timestamps for the comparison). -/
def vendasMesQuery (db : List Venda) (primeiro proximo : PyDate) : ℚ :=
  ((db.filter fun v =>
      !v.cancelada && dtLeB (dateToDT primeiro) v.created_at
        && dtLtB v.created_at (dateToDT proximo)).map vendaLiquido).sum

/-! ### The in-memory metrics cache -/

/-- One `_metrics_cache` entry: `{"value": ..., "ts": ...}`. -/
structure CacheEntry where
  value : Option ℚ
  ts : ℤ
deriving DecidableEq

/-- The whole `_metrics_cache` map (its two fixed keys). -/
structure MetricsCache where
  vendas_dia : CacheEntry
  vendas_mes : CacheEntry
deriving DecidableEq

/-- The `_metrics_cache` initializer: both entries start with a null
value and timestamp 0. -/
def initMetricsCache : MetricsCache :=
  ⟨⟨none, 0⟩, ⟨none, 0⟩⟩

/-- `_cache_ttl_seconds = 15`. -/
def cacheTtlSeconds : ℤ := 15

/-- The freshness test `value is not None and (now - ts) < ttl`. -/
def cacheFreshB (e : CacheEntry) (now : ℤ) : Bool :=
  e.value.isSome && decide (now - e.ts < cacheTtlSeconds)

/-- Python `x or 0.0` on a float `x`. -/
def pyOrZero (x : ℚ) : ℚ :=
  if x = 0 then 0 else x

/-- Python `cached or 0.0` on an optional float. -/
def pyOrOptZero (o : Option ℚ) : ℚ :=
  match o with
  | none => 0
  | some x => pyOrZero x

/-- Outcome of one `db.execute` attempt: the raised-exception schedule is
an explicit parameter of the endpoint model. -/
inductive Attempt where
  | ok
  | fail
deriving DecidableEq

/-! ### The daily-sales endpoint -/

/-- Target-day selection of `vendas_dia`: the client date if truthy and
parsable, else the server current day (`date.today()`). -/
def alvoOf (data : Option String) (today : PyDate) : PyDate :=
  match data with
  | some s => if s ≠ "" then (fromisoformat s).getD today else today
  | none => today

/-- JSON body returned by `vendas_dia`. -/
structure DiaResponse where
  data : String
  total : ℚ
  warning : Option String
deriving DecidableEq

/-- Result of one `vendas_dia` call: the response, the cache state after
the call, and the number of `db.execute` calls made. -/
structure DiaResult where
  resp : DiaResponse
  cache : MetricsCache
  queries : ℕ
deriving DecidableEq

/-- The `GET /api/metricas/vendas-dia` handler. `today` is the server's
current date, `tCheck` the clock at the freshness check, `tStore` the
clock at a successful store, `a0`/`a1` the outcomes of the two query
attempts. The function is total: no exception escapes. -/
def vendas_dia (data : Option String) (db : List Venda) (today : PyDate)
    (cache : MetricsCache) (tCheck tStore : ℤ) (a0 a1 : Attempt) : DiaResult :=
  let alvo := alvoOf data today
  if cacheFreshB cache.vendas_dia tCheck then
    { resp := ⟨dateToIso alvo, cache.vendas_dia.value.getD 0, none⟩
      cache := cache
      queries := 0 }
  else
    match a0 with
    | .ok =>
      let total := pyOrZero (vendasDiaQuery db alvo)
      { resp := ⟨dateToIso alvo, total, none⟩
        cache := { cache with vendas_dia := ⟨some total, tStore⟩ }
        queries := 1 }
    | .fail =>
      match a1 with
      | .ok =>
        let total := pyOrZero (vendasDiaQuery db alvo)
        { resp := ⟨dateToIso alvo, total, none⟩
          cache := { cache with vendas_dia := ⟨some total, tStore⟩ }
          queries := 2 }
      | .fail =>
        { resp := ⟨dateToIso alvo, pyOrOptZero cache.vendas_dia.value, some "cached"⟩
          cache := cache
          queries := 2 }

/-! ### The monthly-sales endpoint -/

/-- Python `str.split("-")`: dash-separated segments, keeping empties
(`"a--b" ↦ ["a","","b"]`, `"" ↦ [""]`). -/
def splitDash : List Char → List (List Char)
  | [] => [[]]
  | c :: rest =>
    match splitDash rest with
    | [] => if c = '-' then [[], []] else [[c]]
    | seg :: segs =>
      if c = '-' then [] :: seg :: segs else (c :: seg) :: segs

/-- Python `int(s)`: optional sign followed by a nonempty digit block
(a representative sub-language of the literals `int` accepts). -/
def parseInt (cs : List Char) : Option ℤ :=
  match cs with
  | '-' :: rest => if rest.isEmpty then none else (parseDigits rest).map (- ·)
  | '+' :: rest => if rest.isEmpty then none else parseDigits rest
  | _ => if cs.isEmpty then none else parseDigits cs

/-- Python `ano, mes = map(int, ano_mes.split("-"))`: exactly two
dash-separated fields, each parsed as an integer. -/
def parseAnoMes (s : String) : Option (ℤ × ℤ) :=
  match splitDash s.toList with
  | [a, b] =>
    match parseInt a, parseInt b with
    | some y, some m => some (y, m)
    | _, _ => none
  | _ => none

/-- First-day selection of `vendas_mes`: `date(ano, mes, 1)` when the
selector is truthy and both the split/int-parse and the date constructor
succeed, else the first day of the server's current month. -/
def primeiroOf (ano_mes : Option String) (today : PyDate) : PyDate :=
  match ano_mes with
  | some s =>
    if s ≠ "" then
      match parseAnoMes s with
      | some (y, m) => (mkDate y m 1).getD ⟨today.year, today.month, 1⟩
      | none => ⟨today.year, today.month, 1⟩
    else ⟨today.year, today.month, 1⟩
  | none => ⟨today.year, today.month, 1⟩

/-- The next-month rollover (lines 84–88 of the router): December maps to
January of the following year. -/
def proximoMesDe (primeiro : PyDate) : PyDate :=
  ⟨primeiro.year + (if primeiro.month == 12 then 1 else 0),
   if primeiro.month == 12 then 1 else primeiro.month + 1,
   1⟩

/-- A malformed month selector: either the split/int-parse of
`ano_mes.split("-")` fails, or `date(ano, mes, 1)` raises. -/
def malformedMes (s : String) : Prop :=
  parseAnoMes s = none ∨
    ∃ y m, parseAnoMes s = some (y, m) ∧ mkDate y m 1 = none

/-- JSON body returned by `vendas_mes`. -/
structure MesResponse where
  ano_mes : String
  total : ℚ
  warning : Option String
deriving DecidableEq

/-- Result of one `vendas_mes` call. -/
structure MesResult where
  resp : MesResponse
  cache : MetricsCache
  queries : ℕ
deriving DecidableEq

/-- The `GET /api/metricas/vendas-mes` handler (same conventions as
`vendas_dia`; the outer catch-all of the handler is unreachable in the
model because date formatting and the rollover are total). -/
def vendas_mes (ano_mes : Option String) (db : List Venda) (today : PyDate)
    (cache : MetricsCache) (tCheck tStore : ℤ) (a0 a1 : Attempt) : MesResult :=
  let primeiro := primeiroOf ano_mes today
  let proximo := proximoMesDe primeiro
  if cacheFreshB cache.vendas_mes tCheck then
    { resp := ⟨formatYM primeiro, cache.vendas_mes.value.getD 0, none⟩
      cache := cache
      queries := 0 }
  else
    match a0 with
    | .ok =>
      let total := pyOrZero (vendasMesQuery db primeiro proximo)
      { resp := ⟨formatYM primeiro, total, none⟩
        cache := { cache with vendas_mes := ⟨some total, tStore⟩ }
        queries := 1 }
    | .fail =>
      match a1 with
      | .ok =>
        let total := pyOrZero (vendasMesQuery db primeiro proximo)
        { resp := ⟨formatYM primeiro, total, none⟩
          cache := { cache with vendas_mes := ⟨some total, tStore⟩ }
          queries := 2 }
      | .fail =>
        { resp := ⟨formatYM primeiro, pyOrOptZero cache.vendas_mes.value, some "cached"⟩
          cache := cache
          queries := 2 }

/-! ### Duplicate-sale cleanup (scripts/cleanup_duplicate_vendas.py) -/

/-- A line item of a sale as the script reads it (fields may be SQL null). -/
structure ItemVendaS where
  produto_id : Option String
  quantidade : Option ℤ
  peso_kg : Option ℚ
  preco_unitario : Option ℚ
  subtotal : Option ℚ
deriving DecidableEq

/-- A sale as the script reads it. `created_at` is an integer-second
timestamp, SQL-nullable. -/
structure VendaS where
  id : String
  usuario_id : Option String
  total : Option ℚ
  desconto : Option ℚ
  forma_pagamento : Option String
  created_at : Option ℤ
  itens : List ItemVendaS
deriving DecidableEq

/-- Python `round(x, 6)` modelled on exact rationals (the claims proved
about signatures do not depend on the tie-breaking mode of the float
rounding, only on `round6` being a function of its argument). -/
def round6 (q : ℚ) : ℚ :=
  (round (q * 1000000) : ℤ) / 1000000

/-- The per-item key tuple of `build_signature`, compared the way Python
compares tuples (lexicographically). -/
def itemKey (it : ItemVendaS) : String ×ₗ ℤ ×ₗ ℚ ×ₗ ℚ ×ₗ ℚ :=
  toLex (it.produto_id.getD "",
    toLex (it.quantidade.getD 0,
      toLex (round6 (it.peso_kg.getD 0),
        toLex (round6 (it.preco_unitario.getD 0), round6 (it.subtotal.getD 0)))))

/-- `key_items.sort()`: Python list sort, ascending. -/
def sortKeys (l : List (String ×ₗ ℤ ×ₗ ℚ ×ₗ ℚ ×ₗ ℚ)) :
    List (String ×ₗ ℤ ×ₗ ℚ ×ₗ ℚ ×ₗ ℚ) :=
  l.mergeSort fun a b => decide (a ≤ b)

/-- `build_signature`: `(round(total, 6), forma_pagamento or "", sorted key items)`. -/
def build_signature (v : VendaS) : ℚ × String × List (String ×ₗ ℤ ×ₗ ℚ ×ₗ ℚ ×ₗ ℚ) :=
  (round6 (v.total.getD 0), v.forma_pagamento.getD "",
    sortKeys (v.itens.map itemKey))

/-- Python truthiness of the optional string `usuario_id`. -/
def pyTruthyStr (o : Option String) : Bool :=
  match o with
  | none => false
  | some s => !(s == "")

/-- The sort key `rank(v)` of `choose_to_keep`: `(0 if usuario_id else 1,
created_at or now)`, compared lexicographically. -/
def rankS (now : ℤ) (v : VendaS) : ℕ ×ₗ ℤ :=
  toLex ((if pyTruthyStr v.usuario_id then 0 else 1), v.created_at.getD now)

/-- `choose_to_keep`: head of the stable sort of the group by `rank`
(`none` exactly where Python would fail on an empty group). -/
def choose_to_keep (now : ℤ) (group : List VendaS) : Option VendaS :=
  (group.mergeSort fun a b => decide (rankS now a ≤ rankS now b)).head?

/-! ### Expense CRUD validation (routers/despesas.py) -/

/-- A JSON payload value (the shapes the expense endpoints inspect). -/
inductive PyVal where
  | null
  | num (q : ℚ)
  | str (s : String)
  | boolean (b : Bool)
deriving DecidableEq

/-- Python `float(x)` on a payload value: numbers pass through, strings
are parsed as (a representative sub-language of) float literals,
everything else raises (`none`). -/
def floatOf (v : PyVal) : Option ℚ :=
  match v with
  | .num q => some q
  | .str s =>
    match s.toList with
    | '-' :: rest => if rest.isEmpty then none else (parseDigits rest).map (fun n => -(n : ℚ))
    | cs => if cs.isEmpty then none else (parseDigits cs).map (fun n => (n : ℚ))
  | _ => none

/-- Whether a character is a hexadecimal digit. -/
def isHexDigit (c : Char) : Bool :=
  c.isDigit || ('a' ≤ c && c ≤ 'f') || ('A' ≤ c && c ≤ 'F')

/-- Python `uuid.UUID(s)` validity for the canonical client forms:
after stripping surrounding braces and removing the dashes, exactly 32
hex digits must remain (the URN spellings the stdlib also accepts are
not exercised by these endpoints and are left out of the model). -/
def uuidOk (s : String) : Bool :=
  let cs := s.toList.filter (fun c => !(c = '-'))
  let cs := (cs.dropWhile fun c => c = '{' || c = '}').reverse
  let cs := (cs.dropWhile fun c => c = '{' || c = '}').reverse
  cs.length == 32 && cs.all isHexDigit

/-- Python `str.strip()` on the model's whitespace set. -/
def pyStrip (s : String) : String :=
  ⟨((s.toList.dropWhile Char.isWhitespace).reverse.dropWhile Char.isWhitespace).reverse⟩

/-- The payload of a create/update expense request. A missing key is
`none`; a key present with JSON null is `some .null`. Text fields the
handlers immediately coerce with `or ""` / `str(...)` are modelled as
optional strings. -/
structure DespesaPayload where
  tipo : Option String
  categoria : Option String
  descricao : Option String
  valor : Option PyVal
  status : Option String
  data_pagamento : Option String
  data_vencimento : Option String
  usuario_id : Option String
  fechada : Option Bool
deriving DecidableEq

/-- A stored/serialized expense row (the fields the claims inspect). -/
structure DespesaOut where
  tipo : String
  categoria : String
  descricao : String
  valor : ℚ
  status : String
  data_pagamento : Option PyDate
  data_vencimento : Option PyDate
  usuario_id : Option String
  fechada : Bool
deriving DecidableEq

instance {ε α : Type} [DecidableEq ε] [DecidableEq α] : DecidableEq (Except ε α) := fun a b =>
  match a, b with
  | .error e, .error f =>
    if h : e = f then isTrue (by rw [h])
    else isFalse (fun hh => h (Except.error.inj hh))
  | .ok x, .ok y =>
    if h : x = y then isTrue (by rw [h])
    else isFalse (fun hh => h (Except.ok.inj hh))
  | .error _, .ok _ => isFalse (fun hh => Except.noConfusion hh)
  | .ok _, .error _ => isFalse (fun hh => Except.noConfusion hh)

/-- `_parse_date`: missing/empty input is `none`; otherwise ISO-parse or
a 400 error with a field-specific message. -/
def parse_date_field (value : Option String) (field : String) :
    Except (ℕ × String) (Option PyDate) :=
  match value with
  | none => .ok none
  | some s =>
    if s = "" then .ok none
    else
      match fromisoformat s with
      | some d => .ok (some d)
      | none => .error (400, field ++ " inválida")

/-- `POST /api/despesas/` (`criar_despesa`): field validation and the
construction of the stored row. An error value is the HTTP status and
detail of the raised `HTTPException`. -/
def criar_despesa (p : DespesaPayload) (today : PyDate) :
    Except (ℕ × String) DespesaOut :=
  let tipo := pyStrip (p.tipo.getD "")
  let categoria := pyStrip (p.categoria.getD "")
  let descricao := pyStrip (p.descricao.getD "")
  if tipo = "" then .error (400, "tipo é obrigatório")
  else if categoria = "" then .error (400, "categoria é obrigatório")
  else if descricao = "" then .error (400, "descricao é obrigatório")
  else
    match floatOf (p.valor.getD .null) with
    | none => .error (400, "valor inválido")
    | some valor_f =>
      match parse_date_field p.data_pagamento "data_pagamento" with
      | .error e => .error e
      | .ok dp =>
        match parse_date_field p.data_vencimento "data_vencimento" with
        | .error e => .error e
        | .ok dv =>
          let data_pagamento := dp.getD today
          let data_vencimento := dv.getD data_pagamento
          let usuario_uuid :=
            match p.usuario_id with
            | some s => if s ≠ "" then (if uuidOk s then some s else none) else none
            | none => none
          .ok
            { tipo := tipo
              categoria := categoria
              descricao := descricao
              valor := valor_f
              status := (fun st => if st = "" then "Pago" else st) (p.status.getD "")
              data_pagamento := some data_pagamento
              data_vencimento := some data_vencimento
              usuario_id := usuario_uuid
              fechada := p.fechada.getD false }

/-- `PUT /api/despesas/{id}` (`atualizar_despesa`): the path-id UUID
check, the 404 lookup, and the patch-only-provided-fields update
(a payload date field present but empty clears the stored date, as
`_parse_date` maps it to null). -/
def atualizar_despesa (despesa_id : String) (p : DespesaPayload)
    (stored : Option DespesaOut) : Except (ℕ × String) DespesaOut :=
  if !uuidOk despesa_id then .error (400, "id inválido")
  else
    match stored with
    | none => .error (404, "Despesa não encontrada")
    | some obj0 =>
      let obj1 := { obj0 with
        tipo := (p.tipo.map pyStrip).getD obj0.tipo
        categoria := (p.categoria.map pyStrip).getD obj0.categoria
        descricao := (p.descricao.map pyStrip).getD obj0.descricao }
      let step2 : Except (ℕ × String) DespesaOut :=
        match p.valor with
        | some .null => .ok obj1
        | some pv =>
          match floatOf pv with
          | none => .error (400, "valor inválido")
          | some q => .ok { obj1 with valor := q }
        | none => .ok obj1
      match step2 with
      | .error e => .error e
      | .ok obj2 =>
        let obj3 := { obj2 with status := (p.status.map pyStrip).getD obj2.status }
        let step4 : Except (ℕ × String) DespesaOut :=
          match p.data_pagamento with
          | none => .ok obj3
          | some s =>
            match parse_date_field (some s) "data_pagamento" with
            | .error e => .error e
            | .ok d => .ok { obj3 with data_pagamento := d }
        match step4 with
        | .error e => .error e
        | .ok obj4 =>
          let step5 : Except (ℕ × String) DespesaOut :=
            match p.data_vencimento with
            | none => .ok obj4
            | some s =>
              match parse_date_field (some s) "data_vencimento" with
              | .error e => .error e
              | .ok d => .ok { obj4 with data_vencimento := d }
          match step5 with
          | .error e => .error e
          | .ok obj5 => .ok { obj5 with fechada := p.fechada.getD obj5.fechada }

/-! ## Theorems -/

/-- `float(x or 0.0)` on a float is the identity. -/
theorem pyOrZero_eq (x : ℚ) : pyOrZero x = x := by
  unfold pyOrZero
  split <;> simp_all

/-- `float(cached or 0.0)` on an optional float is `getD 0`. -/
theorem pyOrOptZero_eq (o : Option ℚ) : pyOrOptZero o = o.getD 0 := by
  cases o <;> simp [pyOrOptZero, pyOrZero_eq]

/-- C1: for every daily-sales or monthly-sales request in which the
initial aggregate query attempt and the single retry both fail (both
attempts only run when the cache check did not already answer the
request), the endpoint returns the last cached value for that metric key
(`0.0` if none was ever cached) together with the marker
`"warning": "cached"`, leaves the cache untouched, and — the handler
being a total function — no exception escapes the endpoint. -/
theorem C1_both_attempts_fail_serves_cache :
    ∀ (data ano_mes : Option String) (db : List Venda) (today : PyDate)
      (cache : MetricsCache) (tCheck tStore : ℤ),
      (cacheFreshB cache.vendas_dia tCheck = false →
        (vendas_dia data db today cache tCheck tStore .fail .fail).resp.total
            = cache.vendas_dia.value.getD 0 ∧
        (vendas_dia data db today cache tCheck tStore .fail .fail).resp.warning
            = some "cached" ∧
        (vendas_dia data db today cache tCheck tStore .fail .fail).cache = cache) ∧
      (cacheFreshB cache.vendas_mes tCheck = false →
        (vendas_mes ano_mes db today cache tCheck tStore .fail .fail).resp.total
            = cache.vendas_mes.value.getD 0 ∧
        (vendas_mes ano_mes db today cache tCheck tStore .fail .fail).resp.warning
            = some "cached" ∧
        (vendas_mes ano_mes db today cache tCheck tStore .fail .fail).cache = cache) := by
  intro data ano_mes db today cache tCheck tStore
  constructor <;> intro h <;>
    simp [vendas_dia, vendas_mes, h, pyOrOptZero_eq]

/-- Witness for C1 at a concrete stale cache and a concrete never-filled
cache: the daily response serves the old value 7, the monthly response
serves 0. -/
theorem C1_both_attempts_fail_serves_cache_witness :
    (vendas_dia (some "2025-03-10") [] ⟨2025, 3, 11⟩
        ⟨⟨some 7, 0⟩, ⟨none, 0⟩⟩ 100 101 .fail .fail).resp.total = 7 ∧
    (vendas_mes (some "2025-03") [] ⟨2025, 3, 11⟩
        ⟨⟨some 7, 0⟩, ⟨none, 0⟩⟩ 100 101 .fail .fail).resp.total = 0 := by
  have h := C1_both_attempts_fail_serves_cache (some "2025-03-10") (some "2025-03")
    [] ⟨2025, 3, 11⟩ ⟨⟨some 7, 0⟩, ⟨none, 0⟩⟩ 100 101
  exact ⟨(h.1 (by decide)).1, (h.2 (by decide)).1⟩

/-- C2: a call finding the cache entry of its metric key non-empty and
younger than the 15-second TTL returns exactly the cached total, runs no
aggregate query, and leaves the cache unchanged — for the daily and the
monthly endpoint alike. -/
theorem C2_fresh_cache_hit_no_query :
    ∀ (data ano_mes : Option String) (db : List Venda) (today : PyDate)
      (cache : MetricsCache) (tCheck tStore : ℤ) (a0 a1 : Attempt) (v w : ℚ),
      (cache.vendas_dia.value = some v →
        tCheck - cache.vendas_dia.ts < cacheTtlSeconds →
        (vendas_dia data db today cache tCheck tStore a0 a1).resp.total = v ∧
        (vendas_dia data db today cache tCheck tStore a0 a1).queries = 0 ∧
        (vendas_dia data db today cache tCheck tStore a0 a1).cache = cache) ∧
      (cache.vendas_mes.value = some w →
        tCheck - cache.vendas_mes.ts < cacheTtlSeconds →
        (vendas_mes ano_mes db today cache tCheck tStore a0 a1).resp.total = w ∧
        (vendas_mes ano_mes db today cache tCheck tStore a0 a1).queries = 0 ∧
        (vendas_mes ano_mes db today cache tCheck tStore a0 a1).cache = cache) := by
  intro data ano_mes db today cache tCheck tStore a0 a1 v w
  constructor <;> intro hv ht <;>
    simp [vendas_dia, vendas_mes, cacheFreshB, hv, ht]

/-- Witness for C2: with value 9 cached 10 seconds ago, both endpoints
answer 9 from the cache with zero queries. -/
theorem C2_fresh_cache_hit_no_query_witness :
    (vendas_dia none [] ⟨2025, 3, 11⟩ ⟨⟨some 9, 0⟩, ⟨some 9, 0⟩⟩ 10 11 .ok .ok).resp.total = 9 ∧
    (vendas_mes none [] ⟨2025, 3, 11⟩ ⟨⟨some 9, 0⟩, ⟨some 9, 0⟩⟩ 10 11 .ok .ok).queries = 0 := by
  have h := C2_fresh_cache_hit_no_query none none [] ⟨2025, 3, 11⟩
    ⟨⟨some 9, 0⟩, ⟨some 9, 0⟩⟩ 10 11 .ok .ok 9 9
  exact ⟨(h.1 rfl (by decide)).1, (h.2 rfl (by decide)).2.1⟩

/-- C3: the cache entries are keyed only by the metric name, never by the
requested period. If a first call (cache miss, successful query) for
period p1 populates the entry, a second call for a different period p2
within the TTL returns the total computed for p1 while echoing p2 in the
response period field, executing no query. Stated for the daily endpoint
(first conjunct) and the monthly endpoint (second conjunct). -/
theorem C3_cache_ignores_requested_period :
    (∀ (data1 data2 : Option String) (db1 db2 : List Venda)
       (today1 today2 : PyDate) (cache : MetricsCache)
       (tC1 tS1 tC2 tS2 : ℤ) (b0 b1 : Attempt),
       cacheFreshB cache.vendas_dia tC1 = false →
       alvoOf data1 today1 ≠ alvoOf data2 today2 →
       tC2 - tS1 < cacheTtlSeconds →
       (vendas_dia data2 db2 today2
           (vendas_dia data1 db1 today1 cache tC1 tS1 .ok .ok).cache
           tC2 tS2 b0 b1).resp.total
         = vendasDiaQuery db1 (alvoOf data1 today1) ∧
       (vendas_dia data2 db2 today2
           (vendas_dia data1 db1 today1 cache tC1 tS1 .ok .ok).cache
           tC2 tS2 b0 b1).resp.data
         = dateToIso (alvoOf data2 today2) ∧
       (vendas_dia data2 db2 today2
           (vendas_dia data1 db1 today1 cache tC1 tS1 .ok .ok).cache
           tC2 tS2 b0 b1).queries = 0) ∧
    (∀ (am1 am2 : Option String) (db1 db2 : List Venda)
       (today1 today2 : PyDate) (cache : MetricsCache)
       (tC1 tS1 tC2 tS2 : ℤ) (b0 b1 : Attempt),
       cacheFreshB cache.vendas_mes tC1 = false →
       primeiroOf am1 today1 ≠ primeiroOf am2 today2 →
       tC2 - tS1 < cacheTtlSeconds →
       (vendas_mes am2 db2 today2
           (vendas_mes am1 db1 today1 cache tC1 tS1 .ok .ok).cache
           tC2 tS2 b0 b1).resp.total
         = vendasMesQuery db1 (primeiroOf am1 today1)
             (proximoMesDe (primeiroOf am1 today1)) ∧
       (vendas_mes am2 db2 today2
           (vendas_mes am1 db1 today1 cache tC1 tS1 .ok .ok).cache
           tC2 tS2 b0 b1).resp.ano_mes
         = formatYM (primeiroOf am2 today2) ∧
       (vendas_mes am2 db2 today2
           (vendas_mes am1 db1 today1 cache tC1 tS1 .ok .ok).cache
           tC2 tS2 b0 b1).queries = 0) := by
  constructor
  · intro data1 data2 db1 db2 today1 today2 cache tC1 tS1 tC2 tS2 b0 b1 hmiss _ ht
    have e1 : (vendas_dia data1 db1 today1 cache tC1 tS1 .ok .ok).cache
        = { cache with vendas_dia :=
              ⟨some (pyOrZero (vendasDiaQuery db1 (alvoOf data1 today1))), tS1⟩ } := by
      simp [vendas_dia, hmiss]
    have hfresh : cacheFreshB
        ⟨some (vendasDiaQuery db1 (alvoOf data1 today1)), tS1⟩ tC2 = true := by
      simp [cacheFreshB, ht]
    rw [e1]
    simp [vendas_dia, hfresh, pyOrZero_eq]
  · intro am1 am2 db1 db2 today1 today2 cache tC1 tS1 tC2 tS2 b0 b1 hmiss _ ht
    have e1 : (vendas_mes am1 db1 today1 cache tC1 tS1 .ok .ok).cache
        = { cache with vendas_mes :=
              ⟨some (pyOrZero (vendasMesQuery db1 (primeiroOf am1 today1)
                  (proximoMesDe (primeiroOf am1 today1)))), tS1⟩ } := by
      simp [vendas_mes, hmiss]
    have hfresh : cacheFreshB
        ⟨some (vendasMesQuery db1 (primeiroOf am1 today1)
            (proximoMesDe (primeiroOf am1 today1))), tS1⟩ tC2 = true := by
      simp [cacheFreshB, ht]
    rw [e1]
    simp [vendas_mes, hfresh, pyOrZero_eq]

/-- Witness for C3: a sale of net 50 on 2025-03-10 is served again for
the request dated 2025-03-11, whose response echoes 2025-03-11. -/
theorem C3_cache_ignores_requested_period_witness :
    (vendas_dia (some "2025-03-11") []
        ⟨2025, 3, 11⟩
        (vendas_dia (some "2025-03-10")
          [⟨some 50, some 0, false, ⟨⟨2025, 3, 10⟩, 30⟩⟩]
          ⟨2025, 3, 10⟩ ⟨⟨none, 0⟩, ⟨none, 0⟩⟩ 0 1 .ok .ok).cache
        10 11 .ok .ok).resp.total = 50 ∧
    (vendas_dia (some "2025-03-11") []
        ⟨2025, 3, 11⟩
        (vendas_dia (some "2025-03-10")
          [⟨some 50, some 0, false, ⟨⟨2025, 3, 10⟩, 30⟩⟩]
          ⟨2025, 3, 10⟩ ⟨⟨none, 0⟩, ⟨none, 0⟩⟩ 0 1 .ok .ok).cache
        10 11 .ok .ok).resp.data = "2025-03-11" := by
  have h := (C3_cache_ignores_requested_period.1) (some "2025-03-10") (some "2025-03-11")
    [⟨some 50, some 0, false, ⟨⟨2025, 3, 10⟩, 30⟩⟩] []
    ⟨2025, 3, 10⟩ ⟨2025, 3, 11⟩ ⟨⟨none, 0⟩, ⟨none, 0⟩⟩ 0 1 10 11 .ok .ok
    (by decide) (by decide) (by decide)
  refine ⟨?_, ?_⟩
  · rw [h.1]
    rw [show alvoOf (some "2025-03-10") ⟨2025, 3, 10⟩ = ⟨2025, 3, 10⟩ from by decide]
    simp [vendasDiaQuery, vendaLiquido, List.filter]
  · rw [h.2.1]
    decide

/-- C4: on a cache miss with a successful query (on the first attempt or
on the retry), the daily endpoint returns the sum of
`coalesce(total,0) - coalesce(desconto,0)` over exactly the
non-cancelled sales whose `created_at` date equals the target day, and
an empty (or all-cancelled) matching set yields total 0 — the `total`
field of the response record always carries a number, never null. -/
theorem C4_dia_success_returns_day_sum :
    ∀ (data : Option String) (db : List Venda) (today : PyDate)
      (cache : MetricsCache) (tCheck tStore : ℤ) (a0 a1 : Attempt),
      cacheFreshB cache.vendas_dia tCheck = false →
      ¬(a0 = .fail ∧ a1 = .fail) →
      (vendas_dia data db today cache tCheck tStore a0 a1).resp.total
          = ((db.filter fun v =>
                !v.cancelada && v.created_at.date == alvoOf data today).map
              vendaLiquido).sum ∧
      ((db.filter fun v =>
            !v.cancelada && v.created_at.date == alvoOf data today) = [] →
        (vendas_dia data db today cache tCheck tStore a0 a1).resp.total = 0) := by
  intro data db today cache tCheck tStore a0 a1 hmiss hok
  have htot : (vendas_dia data db today cache tCheck tStore a0 a1).resp.total
      = vendasDiaQuery db (alvoOf data today) := by
    cases a0 with
    | ok => simp [vendas_dia, hmiss, pyOrZero_eq]
    | fail =>
      cases a1 with
      | ok => simp [vendas_dia, hmiss, pyOrZero_eq]
      | fail => exact absurd ⟨rfl, rfl⟩ hok
  refine ⟨htot, fun hempty => ?_⟩
  rw [htot]
  unfold vendasDiaQuery
  rw [hempty]
  simp

/-- Witness for C4: one non-cancelled sale of 100 with discount 50 on
2025-03-10 makes the endpoint return 50; the conclusion is applied at
the concrete database. -/
theorem C4_dia_success_returns_day_sum_witness :
    (vendas_dia (some "2025-03-10")
        [⟨some 100, some 50, false, ⟨⟨2025, 3, 10⟩, 30⟩⟩,
         ⟨some 999, some 0, true, ⟨⟨2025, 3, 10⟩, 40⟩⟩,
         ⟨some 8, some 0, false, ⟨⟨2025, 3, 9⟩, 40⟩⟩]
        ⟨2025, 3, 10⟩ ⟨⟨none, 0⟩, ⟨none, 0⟩⟩ 100 101 .ok .ok).resp.total
      = (100 : ℚ) - 50 := by
  have h := C4_dia_success_returns_day_sum (some "2025-03-10")
    [⟨some 100, some 50, false, ⟨⟨2025, 3, 10⟩, 30⟩⟩,
     ⟨some 999, some 0, true, ⟨⟨2025, 3, 10⟩, 40⟩⟩,
     ⟨some 8, some 0, false, ⟨⟨2025, 3, 9⟩, 40⟩⟩]
    ⟨2025, 3, 10⟩ ⟨⟨none, 0⟩, ⟨none, 0⟩⟩ 100 101 .ok .ok
    (by decide) (by simp)
  rw [h.1]
  rw [show alvoOf (some "2025-03-10") ⟨2025, 3, 10⟩ = ⟨2025, 3, 10⟩ from by decide]
  simp [List.filter, vendaLiquido,
    show ((⟨2025, 3, 10⟩ : PyDate) == ⟨2025, 3, 10⟩) = true from by decide,
    show ((⟨2025, 3, 9⟩ : PyDate) == ⟨2025, 3, 10⟩) = false from by decide]

/-- The selector "2024-12" parses to the first day 2024-12-01,
independently of the server date. -/
theorem primeiroOf_2024_12 (today : PyDate) :
    primeiroOf (some "2024-12") today = ⟨2024, 12, 1⟩ := by
  simp [primeiroOf, show parseAnoMes "2024-12" = some (2024, 12) from by decide,
    show mkDate 2024 12 1 = some ⟨2024, 12, 1⟩ from by decide]

/-- C5: the monthly query restricts `created_at` to the half-open
interval from the first day of the selected month to the first day of
the next month; for the selector "2024-12" the interval is
[2024-12-01, 2025-01-01) — December rolls over to January of the next
year, as the rollover computes `(year+1, 1)` exactly when `month = 12`
and `(year, month+1)` otherwise. -/
theorem C5_month_interval_rollover :
    ∀ (today : PyDate) (db : List Venda) (cache : MetricsCache)
      (tCheck tStore : ℤ) (a1 : Attempt),
      primeiroOf (some "2024-12") today = ⟨2024, 12, 1⟩ ∧
      proximoMesDe ⟨2024, 12, 1⟩ = ⟨2025, 1, 1⟩ ∧
      (∀ y m : ℤ, proximoMesDe ⟨y, m, 1⟩
          = if m = 12 then ⟨y + 1, 1, 1⟩ else ⟨y, m + 1, 1⟩) ∧
      (cacheFreshB cache.vendas_mes tCheck = false →
        (vendas_mes (some "2024-12") db today cache tCheck tStore .ok a1).resp.total
          = ((db.filter fun v =>
                !v.cancelada && dtLeB (dateToDT ⟨2024, 12, 1⟩) v.created_at
                  && dtLtB v.created_at (dateToDT ⟨2025, 1, 1⟩)).map
              vendaLiquido).sum) := by
  intro today db cache tCheck tStore a1
  refine ⟨primeiroOf_2024_12 today, by decide, ?_, ?_⟩
  · intro y m
    unfold proximoMesDe
    by_cases hm : m = 12 <;> simp [hm]
  · intro hmiss
    have hp : primeiroOf (some "2024-12") today = ⟨2024, 12, 1⟩ := primeiroOf_2024_12 today
    simp [vendas_mes, hmiss, hp, pyOrZero_eq, vendasMesQuery,
      show proximoMesDe ⟨2024, 12, 1⟩ = ⟨2025, 1, 1⟩ from by decide]

/-- Witness for C5: applied at a one-sale database containing a sale at
2024-12-15 12:00 (inside the interval) with the empty cold cache. -/
theorem C5_month_interval_rollover_witness :
    (vendas_mes (some "2024-12") [⟨some 3, some 0, false, ⟨⟨2024, 12, 15⟩, 43200⟩⟩]
        ⟨2025, 7, 4⟩ ⟨⟨none, 0⟩, ⟨none, 0⟩⟩ 100 101 .ok .ok).resp.total
      = 3 := by
  have h := C5_month_interval_rollover ⟨2025, 7, 4⟩
    [⟨some 3, some 0, false, ⟨⟨2024, 12, 15⟩, 43200⟩⟩]
    ⟨⟨none, 0⟩, ⟨none, 0⟩⟩ 100 101 .ok
  rw [h.2.2.2 (by decide)]
  simp [List.filter, vendaLiquido,
    show dtLeB (dateToDT ⟨2024, 12, 1⟩) ⟨⟨2024, 12, 15⟩, 43200⟩ = true from by decide,
    show dtLtB (⟨⟨2024, 12, 15⟩, 43200⟩ : PyDateTime) (dateToDT ⟨2025, 1, 1⟩) = true from by decide]

/-- C6: a malformed (or missing) client period string never yields an
error response: the daily endpoint behaves exactly as a request for the
server's current day, the monthly endpoint exactly as a request for the
first day of the server's current month (both handlers being total
functions that always produce a response record). -/
theorem C6_malformed_input_falls_back :
    (∀ (s : String) (db : List Venda) (today : PyDate) (cache : MetricsCache)
       (tCheck tStore : ℤ) (a0 a1 : Attempt),
       fromisoformat s = none →
       alvoOf (some s) today = today ∧
       vendas_dia (some s) db today cache tCheck tStore a0 a1
         = vendas_dia none db today cache tCheck tStore a0 a1) ∧
    (∀ (s : String) (db : List Venda) (today : PyDate) (cache : MetricsCache)
       (tCheck tStore : ℤ) (a0 a1 : Attempt),
       malformedMes s →
       primeiroOf (some s) today = ⟨today.year, today.month, 1⟩ ∧
       vendas_mes (some s) db today cache tCheck tStore a0 a1
         = vendas_mes none db today cache tCheck tStore a0 a1) := by
  constructor
  · intro s db today cache tCheck tStore a0 a1 hbad
    have halvo : alvoOf (some s) today = today := by
      unfold alvoOf
      by_cases hs : s = "" <;> simp [hs, hbad]
    refine ⟨halvo, ?_⟩
    unfold vendas_dia
    rw [show alvoOf none today = today from rfl, halvo]
  · intro s db today cache tCheck tStore a0 a1 hbad
    have hprim : primeiroOf (some s) today = ⟨today.year, today.month, 1⟩ := by
      unfold primeiroOf
      by_cases hs : s = ""
      · simp [hs]
      · rcases hbad with hnone | ⟨y, m, hsome, hmk⟩
        · simp [hs, hnone]
        · simp [hs, hsome, hmk]
    refine ⟨hprim, ?_⟩
    unfold vendas_mes
    rw [show primeiroOf none today = ⟨today.year, today.month, 1⟩ from rfl, hprim]

/-- Witness for C6: the garbage day string "10/03/2025" and the garbage
month string "2024-13" both collapse to the request with the parameter
absent. -/
theorem C6_malformed_input_falls_back_witness :
    alvoOf (some "10/03/2025") ⟨2025, 3, 11⟩ = ⟨2025, 3, 11⟩ ∧
    primeiroOf (some "2024-13") ⟨2025, 3, 11⟩ = ⟨2025, 3, 1⟩ := by
  refine ⟨(C6_malformed_input_falls_back.1 "10/03/2025" [] ⟨2025, 3, 11⟩
      ⟨⟨none, 0⟩, ⟨none, 0⟩⟩ 0 0 .ok .ok (by decide)).1, ?_⟩
  exact (C6_malformed_input_falls_back.2 "2024-13" [] ⟨2025, 3, 11⟩
      ⟨⟨none, 0⟩, ⟨none, 0⟩⟩ 0 0 .ok .ok
      (Or.inr ⟨2024, 13, by decide, by decide⟩)).1

/-- C7: per metric key, every cache write stores a non-null value: after
any call to either endpoint, each entry either is untouched or holds
`some` freshly computed total — so a non-null `value` is never cleared
back to null, only replaced, and `value` can be null only before the
first successful computation. Each endpoint also leaves the other
metric's entry exactly as it was. -/
theorem C7_cache_value_never_cleared :
    ∀ (data ano_mes : Option String) (db : List Venda) (today : PyDate)
      (cache : MetricsCache) (tCheck tStore : ℤ) (a0 a1 b0 b1 : Attempt),
      initMetricsCache.vendas_dia.value = none ∧
      initMetricsCache.vendas_mes.value = none ∧
      ((vendas_dia data db today cache tCheck tStore a0 a1).cache.vendas_dia.value
          = cache.vendas_dia.value ∨
        ∃ q, (vendas_dia data db today cache tCheck tStore a0 a1).cache.vendas_dia.value
          = some q) ∧
      (vendas_dia data db today cache tCheck tStore a0 a1).cache.vendas_mes
        = cache.vendas_mes ∧
      ((vendas_mes ano_mes db today cache tCheck tStore b0 b1).cache.vendas_mes.value
          = cache.vendas_mes.value ∨
        ∃ q, (vendas_mes ano_mes db today cache tCheck tStore b0 b1).cache.vendas_mes.value
          = some q) ∧
      (vendas_mes ano_mes db today cache tCheck tStore b0 b1).cache.vendas_dia
        = cache.vendas_dia := by
  intro data ano_mes db today cache tCheck tStore a0 a1 b0 b1
  refine ⟨rfl, rfl, ?_, ?_, ?_, ?_⟩
  · by_cases hf : cacheFreshB cache.vendas_dia tCheck
    · left; simp [vendas_dia, hf]
    · cases a0 with
      | ok =>
        right
        exact ⟨pyOrZero (vendasDiaQuery db (alvoOf data today)), by simp [vendas_dia, hf]⟩
      | fail =>
        cases a1 with
        | ok =>
          right
          exact ⟨pyOrZero (vendasDiaQuery db (alvoOf data today)), by simp [vendas_dia, hf]⟩
        | fail => left; simp [vendas_dia, hf]
  · by_cases hf : cacheFreshB cache.vendas_dia tCheck
    · simp [vendas_dia, hf]
    · cases a0 with
      | ok => simp [vendas_dia, hf]
      | fail => cases a1 <;> simp [vendas_dia, hf]
  · by_cases hf : cacheFreshB cache.vendas_mes tCheck
    · left; simp [vendas_mes, hf]
    · cases b0 with
      | ok =>
        right
        exact ⟨pyOrZero (vendasMesQuery db (primeiroOf ano_mes today)
          (proximoMesDe (primeiroOf ano_mes today))), by simp [vendas_mes, hf]⟩
      | fail =>
        cases b1 with
        | ok =>
          right
          exact ⟨pyOrZero (vendasMesQuery db (primeiroOf ano_mes today)
            (proximoMesDe (primeiroOf ano_mes today))), by simp [vendas_mes, hf]⟩
        | fail => left; simp [vendas_mes, hf]
  · by_cases hf : cacheFreshB cache.vendas_mes tCheck
    · simp [vendas_mes, hf]
    · cases b0 with
      | ok => simp [vendas_mes, hf]
      | fail => cases b1 <;> simp [vendas_mes, hf]

/-- Sorting by a linear order maps permuted lists to the same sorted
list: the sorted output is a canonical representative of the multiset. -/
theorem mergeSort_le_eq_of_perm {α : Type} [LinearOrder α] {l₁ l₂ : List α}
    (h : l₁.Perm l₂) :
    (l₁.mergeSort fun a b => decide (a ≤ b))
      = l₂.mergeSort fun a b => decide (a ≤ b) := by
  have htrans : ∀ a b c : α, decide (a ≤ b) → decide (b ≤ c) → decide (a ≤ c) := by
    intro a b c hab hbc
    simp only [decide_eq_true_eq] at *
    exact le_trans hab hbc
  have htotal : ∀ a b : α, decide (a ≤ b) || decide (b ≤ a) := by
    intro a b
    rcases le_total a b with hle | hle <;> simp [hle]
  have hs₁ : (l₁.mergeSort fun a b => decide (a ≤ b)).Pairwise
      (fun a b => (decide (a ≤ b) : Bool) = true) :=
    List.sorted_mergeSort htrans htotal l₁
  have hs₂ : (l₂.mergeSort fun a b => decide (a ≤ b)).Pairwise
      (fun a b => (decide (a ≤ b) : Bool) = true) :=
    List.sorted_mergeSort htrans htotal l₂
  have hanti : IsAntisymm α (fun a b => (decide (a ≤ b) : Bool) = true) := by
    constructor
    intro a b hab hba
    simp only [decide_eq_true_eq] at *
    exact le_antisymm hab hba
  have hperm : (l₁.mergeSort fun a b => decide (a ≤ b)).Perm
      (l₂.mergeSort fun a b => decide (a ≤ b)) :=
    ((l₁.mergeSort_perm _).trans h).trans (l₂.mergeSort_perm _).symm
  exact @List.eq_of_perm_of_sorted _ _ hanti _ _ hperm hs₁ hs₂

/-- C8: the duplicate-detection signature is invariant under permutation
of the line-item list: two sales that agree on every other field and
whose item lists are permutations of each other have equal signatures. -/
theorem C8_signature_order_independent :
    ∀ v₁ v₂ : VendaS,
      v₁.total = v₂.total →
      v₁.forma_pagamento = v₂.forma_pagamento →
      v₁.itens.Perm v₂.itens →
      build_signature v₁ = build_signature v₂ := by
  intro v₁ v₂ htot hforma hperm
  unfold build_signature sortKeys
  rw [htot, hforma]
  rw [mergeSort_le_eq_of_perm (hperm.map itemKey)]

/-- Witness for C8 at two concrete sales whose two line items are listed
in opposite orders. -/
theorem C8_signature_order_independent_witness :
    build_signature
        ⟨"a", some "u", some 10, some 0, some "cash", some 5,
          [⟨some "p1", some 1, some 0, some 4, some 4⟩,
           ⟨some "p2", some 2, some 0, some 3, some 6⟩]⟩
      = build_signature
        ⟨"b", none, some 10, some 0, some "cash", some 9,
          [⟨some "p2", some 2, some 0, some 3, some 6⟩,
           ⟨some "p1", some 1, some 0, some 4, some 4⟩]⟩ :=
  C8_signature_order_independent _ _ rfl rfl (List.Perm.swap _ _ _)

/-- The head of the rank-sorted group is a member attaining the
lexicographic minimum of `rank` over the group. -/
theorem choose_to_keep_min (now : ℤ) (group : List VendaS) (keep : VendaS)
    (h : choose_to_keep now group = some keep) :
    keep ∈ group ∧ ∀ v ∈ group, rankS now keep ≤ rankS now v := by
  unfold choose_to_keep at h
  set le := fun a b => decide (rankS now a ≤ rankS now b) with hle
  have htrans : ∀ a b c : VendaS, le a b → le b c → le a c := by
    intro a b c hab hbc
    simp only [hle, decide_eq_true_eq] at *
    exact le_trans hab hbc
  have htotal : ∀ a b : VendaS, le a b || le b a := by
    intro a b
    rcases le_total (rankS now a) (rankS now b) with h2 | h2 <;> simp [hle, h2]
  have hsorted : (group.mergeSort le).Pairwise (fun a b => le a b = true) :=
    List.sorted_mergeSort htrans htotal group
  cases hms : group.mergeSort le with
  | nil => rw [hms] at h; simp at h
  | cons k rest =>
    rw [hms] at h
    simp only [List.head?] at h
    have hk : k = keep := by injection h
    subst hk
    rw [hms] at hsorted
    have hmem : ∀ v ∈ group, v ∈ k :: rest := by
      intro v hv
      rw [← hms]
      exact List.mem_mergeSort.mpr hv
    constructor
    · have : k ∈ group.mergeSort le := by rw [hms]; exact List.mem_cons_self _ _
      exact List.mem_mergeSort.mp this
    · intro v hv
      rcases List.mem_cons.mp (hmem v hv) with hvk | hvrest
      · rw [hvk]
      · have := (List.pairwise_cons.mp hsorted).1 v hvrest
        simpa [hle, decide_eq_true_eq] using this

/-- C9: the kept sale of a duplicate group is a member of the group; any
sale with a (truthy) non-null operator is preferred over any with a null
operator regardless of timestamps — if some group member has a non-null
operator, so does the kept sale; and among sales tying on operator
nullity the kept sale has the earliest creation timestamp (null
timestamps read as the current time). -/
theorem C9_keep_rule :
    ∀ (now : ℤ) (group : List VendaS) (keep : VendaS),
      choose_to_keep now group = some keep →
      keep ∈ group ∧
      (∀ v ∈ group, pyTruthyStr v.usuario_id = true →
        pyTruthyStr keep.usuario_id = true) ∧
      (∀ v ∈ group, pyTruthyStr v.usuario_id = pyTruthyStr keep.usuario_id →
        keep.created_at.getD now ≤ v.created_at.getD now) := by
  intro now group keep h
  obtain ⟨hmem, hmin⟩ := choose_to_keep_min now group keep h
  refine ⟨hmem, ?_, ?_⟩
  · intro v hv htruthy
    by_contra hkeep
    have hle := hmin v hv
    rw [rankS, rankS, Prod.Lex.le_iff] at hle
    simp only [htruthy, if_true, Bool.not_eq_true] at *
    rw [hkeep] at hle
    simp at hle
  · intro v hv heq
    have hle := hmin v hv
    rw [rankS, rankS, Prod.Lex.le_iff] at hle
    rw [heq] at hle
    rcases hle with hlt | ⟨_, hle2⟩
    · simp at hlt
    · exact hle2

/-- Witness for C9 on a singleton group: the only member is kept and the
minimality conclusions hold for it. -/
theorem C9_keep_rule_witness :
    (⟨"a", some "u", some 10, some 0, some "cash", some 5, []⟩ : VendaS)
      ∈ [(⟨"a", some "u", some 10, some 0, some "cash", some 5, []⟩ : VendaS)] := by
  have h := C9_keep_rule 0
    [⟨"a", some "u", some 10, some 0, some "cash", some 5, []⟩]
    ⟨"a", some "u", some 10, some 0, some "cash", some 5, []⟩
    (by simp [choose_to_keep])
  exact h.1

/-- Counterexample to C10 as stated: a create-expense request carrying
the malformed UUID "not-a-uuid" in `usuario_id` is not answered with a
4xx outcome — it succeeds, and the malformed value is silently defaulted
to a null operator. -/
theorem C10_counterexample_silent_uuid_default :
    uuidOk "not-a-uuid" = false ∧
    criar_despesa
        ⟨some "Fixa", some "Renda", some "Aluguel", some (.num 100), none,
          none, none, some "not-a-uuid", none⟩ ⟨2025, 3, 10⟩
      = .ok ⟨"Fixa", "Renda", "Aluguel", 100, "Pago",
          some ⟨2025, 3, 10⟩, some ⟨2025, 3, 10⟩, none, false⟩ := by
  constructor
  · decide
  · decide

/-- C10 (amended): malformed path-identifier UUIDs, missing required
fields and unparsable amounts are reported with a 400 outcome and a
field-specific message — but the optional `usuario_id` of the
create-expense payload is the exception: when malformed it is silently
defaulted to null instead of being reported. -/
theorem C10_amended_validation_reporting :
    (∀ (did : String) (p : DespesaPayload) (stored : Option DespesaOut),
       uuidOk did = false →
       atualizar_despesa did p stored = .error (400, "id inválido")) ∧
    (∀ (p : DespesaPayload) (today : PyDate),
       pyStrip (p.tipo.getD "") = "" →
       criar_despesa p today = .error (400, "tipo é obrigatório")) ∧
    (∀ (p : DespesaPayload) (today : PyDate),
       pyStrip (p.tipo.getD "") ≠ "" →
       pyStrip (p.categoria.getD "") ≠ "" →
       pyStrip (p.descricao.getD "") ≠ "" →
       floatOf (p.valor.getD .null) = none →
       criar_despesa p today = .error (400, "valor inválido")) ∧
    (∀ (did : String) (p : DespesaPayload) (stored : DespesaOut) (pv : PyVal),
       uuidOk did = true →
       p.valor = some pv → pv ≠ .null → floatOf pv = none →
       atualizar_despesa did p (some stored) = .error (400, "valor inválido")) ∧
    (∀ (p : DespesaPayload) (today : PyDate) (s : String) (out : DespesaOut),
       p.usuario_id = some s → uuidOk s = false →
       criar_despesa p today = .ok out →
       out.usuario_id = none) := by
  refine ⟨?_, ?_, ?_, ?_, ?_⟩
  · intro did p stored h
    simp [atualizar_despesa, h]
  · intro p today h
    simp [criar_despesa, h]
  · intro p today h1 h2 h3 h4
    simp [criar_despesa, h1, h2, h3, h4]
  · intro did p stored pv huuid hval hnn hfl
    cases pv with
    | null => exact absurd rfl hnn
    | num q => simp [floatOf] at hfl
    | str s => simp [atualizar_despesa, huuid, hval, hfl]
    | boolean b => simp [atualizar_despesa, huuid, hval, hfl]
  · intro p today s out hs huuid hok
    unfold criar_despesa at hok
    by_cases h1 : pyStrip (p.tipo.getD "") = ""
    · simp [h1] at hok
    · by_cases h2 : pyStrip (p.categoria.getD "") = ""
      · simp [h1, h2] at hok
      · by_cases h3 : pyStrip (p.descricao.getD "") = ""
        · simp [h1, h2, h3] at hok
        · cases h4 : floatOf (p.valor.getD .null) with
          | none => simp [h1, h2, h3, h4] at hok
          | some q =>
            cases h5 : parse_date_field p.data_pagamento "data_pagamento" with
            | error e => simp [h1, h2, h3, h4, h5] at hok
            | ok dp =>
              cases h6 : parse_date_field p.data_vencimento "data_vencimento" with
              | error e => simp [h1, h2, h3, h4, h5, h6] at hok
              | ok dv =>
                simp [h1, h2, h3, h4, h5, h6, hs, huuid] at hok
                rw [← hok]

/-- Witness for the amended C10 at concrete requests: a malformed path
id is rejected, a missing `tipo` is rejected, an unparsable amount is
rejected, and a malformed payload `usuario_id` silently becomes null. -/
theorem C10_amended_validation_reporting_witness :
    atualizar_despesa "zzz" ⟨none, none, none, none, none, none, none, none, none⟩ none
        = .error (400, "id inválido") ∧
    criar_despesa ⟨none, some "Renda", some "Aluguel", some (.num 100), none,
        none, none, none, none⟩ ⟨2025, 3, 10⟩
        = .error (400, "tipo é obrigatório") ∧
    criar_despesa ⟨some "Fixa", some "Renda", some "Aluguel", some (.str "abc"), none,
        none, none, none, none⟩ ⟨2025, 3, 10⟩
        = .error (400, "valor inválido") ∧
    (criar_despesa ⟨some "Fixa", some "Renda", some "Aluguel", some (.num 100), none,
        none, none, some "not-a-uuid", none⟩ ⟨2025, 3, 10⟩
      = .ok ⟨"Fixa", "Renda", "Aluguel", 100, "Pago",
          some ⟨2025, 3, 10⟩, some ⟨2025, 3, 10⟩, none, false⟩ →
      (⟨"Fixa", "Renda", "Aluguel", 100, "Pago",
          some ⟨2025, 3, 10⟩, some ⟨2025, 3, 10⟩, none, false⟩ : DespesaOut).usuario_id
        = none) := by
  refine ⟨?_, ?_, ?_, ?_⟩
  · exact C10_amended_validation_reporting.1 "zzz"
      ⟨none, none, none, none, none, none, none, none, none⟩ none (by decide)
  · exact C10_amended_validation_reporting.2.1
      ⟨none, some "Renda", some "Aluguel", some (.num 100), none,
        none, none, none, none⟩ ⟨2025, 3, 10⟩ (by decide)
  · exact C10_amended_validation_reporting.2.2.1
      ⟨some "Fixa", some "Renda", some "Aluguel", some (.str "abc"), none,
        none, none, none, none⟩ ⟨2025, 3, 10⟩ (by decide) (by decide) (by decide) (by decide)
  · exact C10_amended_validation_reporting.2.2.2.2
      ⟨some "Fixa", some "Renda", some "Aluguel", some (.num 100), none,
        none, none, some "not-a-uuid", none⟩ ⟨2025, 3, 10⟩ "not-a-uuid" _ rfl (by decide)

end Nelson5
